import Mathlib

/-!
Verification of the hangman turn-resolution logic in
`src/control-flow/hangman`.  The repository contains one data type
(`Game` in `hangman.py`) and three implementations of the transition
function `make_guess`:

* `impl/nested.py`     — nested conditionals (`make_guess`,
  `accept_guess`, `score_guess`, `maybe_won`);
* `impl/indexed.py`    — a flat chain of indexed conditionals over
  named predicates;
* `impl/indexed_fns.py` — the same chain, dispatching to named
  consequent functions.

The embedding below is a direct translation: Python sets become
`Finset Char`, the string state tag stays a `String` (the source and
its tests use arbitrary strings such as `''`), and the Python integer
`guesses_left` becomes `Int` (Python integers are unbounded and the
code can drive the counter negative).
-/

/-- `Game` from `hangman.py`: `NamedTuple` with fields
`state`, `guessed`, `letters`, `guesses_left`. -/
structure Game where
  state : String
  guessed : Finset Char
  letters : Finset Char
  guessesLeft : Int
deriving DecidableEq

namespace nested

/-- `maybe_won` from `impl/nested.py`. -/
def maybe_won (game : Game) : Game :=
  if game.letters ⊆ game.guessed then
    { game with state := "won" }
  else
    { game with state := "good_guess" }

/-- `score_guess` from `impl/nested.py`. -/
def score_guess (game : Game) (guess : Char) : Game :=
  if guess ∈ game.letters then
    maybe_won game
  else
    if game.guessesLeft = 1 then
      { game with guessesLeft := 0, state := "lost" }
    else
      { game with guessesLeft := game.guessesLeft - 1, state := "bad_guess" }

/-- `accept_guess` from `impl/nested.py`. -/
def accept_guess (game : Game) (guess : Char) : Game :=
  if guess ∈ game.guessed then
    { game with state := "already_guessed" }
  else
    score_guess { game with guessed := game.guessed ∪ {guess} } guess

/-- `make_guess` from `impl/nested.py`. -/
def make_guess (game : Game) (guess : Char) : Game :=
  if game.state ∉ (["won", "lost"] : List String) then
    accept_guess game guess
  else
    game

end nested

namespace indexed

/-- `is_game_already_over` from `impl/indexed.py`. -/
def is_game_already_over (game : Game) : Bool :=
  decide (game.state ∈ (["won", "lost"] : List String))

/-- `is_already_guessed` from `impl/indexed.py`. -/
def is_already_guessed (game : Game) (guess : Char) : Bool :=
  decide (guess ∈ game.guessed)

/-- `is_winning_guess` from `impl/indexed.py`. -/
def is_winning_guess (game : Game) (guess : Char) : Bool :=
  decide (game.letters ⊆ game.guessed ∪ {guess})

/-- `is_losing_guess` from `impl/indexed.py`. -/
def is_losing_guess (game : Game) (guess : Char) : Bool :=
  decide (guess ∉ game.letters) && decide (game.guessesLeft = 1)

/-- `is_good_guess` from `impl/indexed.py`. -/
def is_good_guess (game : Game) (guess : Char) : Bool :=
  decide (guess ∈ game.letters)

/-- `make_guess` from `impl/indexed.py`. -/
def make_guess (game : Game) (guess : Char) : Game :=
  if is_game_already_over game then
    game
  else if is_already_guessed game guess then
    { game with state := "already_guessed" }
  else if is_winning_guess game guess then
    { game with state := "won", guessed := game.guessed ∪ {guess} }
  else if is_losing_guess game guess then
    { game with state := "lost", guessed := game.guessed ∪ {guess},
                guessesLeft := 0 }
  else if is_good_guess game guess then
    { game with state := "good_guess", guessed := game.guessed ∪ {guess} }
  else
    { game with state := "bad_guess", guessed := game.guessed ∪ {guess},
                guessesLeft := game.guessesLeft - 1 }

end indexed

namespace indexed_fns

/-- `is_game_already_over` from `impl/indexed_fns.py`. -/
def is_game_already_over (game : Game) : Bool :=
  decide (game.state ∈ (["won", "lost"] : List String))

/-- `is_already_guessed` from `impl/indexed_fns.py`. -/
def is_already_guessed (game : Game) (guess : Char) : Bool :=
  decide (guess ∈ game.guessed)

/-- `is_winning_guess` from `impl/indexed_fns.py`. -/
def is_winning_guess (game : Game) (guess : Char) : Bool :=
  decide (game.letters ⊆ game.guessed ∪ {guess})

/-- `is_losing_guess` from `impl/indexed_fns.py`. -/
def is_losing_guess (game : Game) (guess : Char) : Bool :=
  decide (guess ∉ game.letters) && decide (game.guessesLeft = 1)

/-- `is_good_guess` from `impl/indexed_fns.py`. -/
def is_good_guess (game : Game) (guess : Char) : Bool :=
  decide (guess ∈ game.letters)

/-- `already_guessed` from `impl/indexed_fns.py`. -/
def already_guessed (game : Game) : Game :=
  { game with state := "already_guessed" }

/-- `win` from `impl/indexed_fns.py`. -/
def win (game : Game) (guess : Char) : Game :=
  { game with state := "won", guessed := game.guessed ∪ {guess} }

/-- `lose` from `impl/indexed_fns.py`. -/
def lose (game : Game) (guess : Char) : Game :=
  { game with state := "lost", guessed := game.guessed ∪ {guess},
              guessesLeft := 0 }

/-- `good_guess` from `impl/indexed_fns.py`. -/
def good_guess (game : Game) (guess : Char) : Game :=
  { game with state := "good_guess", guessed := game.guessed ∪ {guess} }

/-- `bad_guess` from `impl/indexed_fns.py`. -/
def bad_guess (game : Game) (guess : Char) : Game :=
  { game with state := "bad_guess", guessed := game.guessed ∪ {guess},
              guessesLeft := game.guessesLeft - 1 }

/-- `make_guess` from `impl/indexed_fns.py`. -/
def make_guess (game : Game) (guess : Char) : Game :=
  if is_game_already_over game then
    game
  else if is_already_guessed game guess then
    already_guessed game
  else if is_winning_guess game guess then
    win game guess
  else if is_losing_guess game guess then
    lose game guess
  else if is_good_guess game guess then
    good_guess game guess
  else
    bad_guess game guess

end indexed_fns

/-! ### Shared helper lemmas -/

/-- `impl/indexed_fns.py` is definitionally the same transition function as
`impl/indexed.py`: inlining its named consequent functions recovers the
flat indexed chain. -/
lemma impl_fns_eq (g : Game) (x : Char) :
    indexed_fns.make_guess g x = indexed.make_guess g x := rfl

/-- `impl/nested.py` agrees with `impl/indexed.py` whenever the guess is a
secret letter or the guessed set does not already cover the secret
letters. -/
lemma nested_agrees_indexed (g : Game) (x : Char)
    (h : x ∈ g.letters ∨ ¬ g.letters ⊆ g.guessed) :
    nested.make_guess g x = indexed.make_guess g x := by
  unfold nested.make_guess nested.accept_guess nested.score_guess nested.maybe_won
    indexed.make_guess indexed.is_game_already_over indexed.is_already_guessed
    indexed.is_winning_guess indexed.is_losing_guess indexed.is_good_guess
  by_cases hterm : g.state ∈ (["won", "lost"] : List String)
  · simp [hterm]
  · by_cases hg : x ∈ g.guessed
    · simp [hterm, hg]
    · by_cases hx : x ∈ g.letters
      · by_cases hw : g.letters ⊆ g.guessed ∪ {x}
        · simp [hterm, hg, hx, hw]
        · simp [hterm, hg, hx, hw]
      · have hns : ¬ g.letters ⊆ g.guessed := by tauto
        have hw : ¬ g.letters ⊆ g.guessed ∪ {x} := by
          intro hsub
          apply hns
          intro a ha
          rcases Finset.mem_union.mp (hsub ha) with h1 | h1
          · exact h1
          · exact absurd (Finset.mem_singleton.mp h1 ▸ ha) hx
        by_cases h1 : g.guessesLeft = 1
        · simp [hterm, hg, hx, hw, h1]
        · simp [hterm, hg, hx, hw, h1]

/-! ### Claims -/

/-- C1 counterexample: the three implementations do NOT agree on every
Game.  On the game `(state = "", guessed = ∅, letters = ∅,
guessesLeft = 1)` with guess `'a'`, `nested.make_guess` returns a lost
game while `indexed.make_guess` returns a won game: `nested.py` only
reaches its winning check when the guess is a secret letter, whereas
`indexed.py` tests `letters ⊆ guessed ∪ {guess}` first. -/
theorem C1_counterexample :
    nested.make_guess ⟨"", ∅, ∅, 1⟩ 'a' = ⟨"lost", {'a'}, ∅, 0⟩ ∧
    indexed.make_guess ⟨"", ∅, ∅, 1⟩ 'a' = ⟨"won", {'a'}, ∅, 1⟩ ∧
    nested.make_guess ⟨"", ∅, ∅, 1⟩ 'a' ≠ indexed.make_guess ⟨"", ∅, ∅, 1⟩ 'a' := by
  refine ⟨by decide, by decide, by decide⟩

/-- C1 (amended): `indexed.make_guess` and `indexed_fns.make_guess` agree
on every Game and guess; `nested.make_guess` agrees with both whenever
the guess is in `letters` or `letters` is not already a subset of
`guessed` (the only disagreements are games whose guessed set already
covers every secret letter, hit with a new non-secret guess). -/
theorem C1_agreement :
    (∀ (g : Game) (x : Char),
        indexed.make_guess g x = indexed_fns.make_guess g x) ∧
    (∀ (g : Game) (x : Char), x ∈ g.letters ∨ ¬ g.letters ⊆ g.guessed →
        nested.make_guess g x = indexed.make_guess g x ∧
        nested.make_guess g x = indexed_fns.make_guess g x) := by
  refine ⟨fun g x => (impl_fns_eq g x).symm, fun g x h => ?_⟩
  refine ⟨nested_agrees_indexed g x h, ?_⟩
  rw [impl_fns_eq]
  exact nested_agrees_indexed g x h

/-- C1 witness: the agreement theorem applied at a concrete input
(`letters = {'a'}`, guess `'a'`). -/
theorem C1_agreement_witness :
    nested.make_guess ⟨"", ∅, {'a'}, 1⟩ 'a' =
      indexed.make_guess ⟨"", ∅, {'a'}, 1⟩ 'a' :=
  (C1_agreement.2 ⟨"", ∅, {'a'}, 1⟩ 'a' (Or.inl (by decide))).1

/-- C2 counterexample: a Game with `guessesLeft = 0` is well-formed per
the claim (`guessesLeft >= 0`), yet a wrong guess on it drives
`guessesLeft` to `-1` in both the nested and the indexed
implementations, because the bad-guess fallback fires whenever
`guessesLeft ≠ 1`, not only when `guessesLeft > 1`. -/
theorem C2_counterexample :
    (0 : Int) ≤ (Game.mk "" ∅ {'b'} 0).guessesLeft ∧
    (indexed.make_guess ⟨"", ∅, {'b'}, 0⟩ 'a').guessesLeft = -1 ∧
    (nested.make_guess ⟨"", ∅, {'b'}, 0⟩ 'a').guessesLeft = -1 := by
  refine ⟨by decide, by decide, by decide⟩

/-- C2 (amended): for every Game with `guessesLeft ≥ 1` and every
letter, the result of `make_guess` (nested and indexed alike) has
`guessesLeft ≥ 0`; the counter is either unchanged or decreased by
exactly 1, and (in the indexed implementation) it decreases exactly
when a new, non-winning, non-secret guess is accepted — the bad-guess
fallback or the losing branch. -/
theorem C2_guesses_left (g : Game) (x : Char) (h : 1 ≤ g.guessesLeft) :
    0 ≤ (indexed.make_guess g x).guessesLeft ∧
    0 ≤ (nested.make_guess g x).guessesLeft ∧
    ((indexed.make_guess g x).guessesLeft = g.guessesLeft ∨
      (indexed.make_guess g x).guessesLeft = g.guessesLeft - 1) ∧
    ((indexed.make_guess g x).guessesLeft = g.guessesLeft - 1 ↔
      (¬(g.state = "won" ∨ g.state = "lost") ∧ x ∉ g.guessed ∧
        ¬ g.letters ⊆ g.guessed ∪ {x} ∧ x ∉ g.letters)) := by
  unfold nested.make_guess nested.accept_guess nested.score_guess nested.maybe_won
    indexed.make_guess indexed.is_game_already_over indexed.is_already_guessed
    indexed.is_winning_guess indexed.is_losing_guess indexed.is_good_guess
  split_ifs <;> simp_all <;> omega

/-- C2 witness: the amended theorem applied at `letters = {'a'}`,
`guessesLeft = 3`, guess `'b'`. -/
theorem C2_guesses_left_witness :
    0 ≤ (indexed.make_guess ⟨"", ∅, {'a'}, 3⟩ 'b').guessesLeft ∧
    0 ≤ (nested.make_guess ⟨"", ∅, {'a'}, 3⟩ 'b').guessesLeft :=
  ⟨(C2_guesses_left ⟨"", ∅, {'a'}, 3⟩ 'b' (by decide)).1,
   (C2_guesses_left ⟨"", ∅, {'a'}, 3⟩ 'b' (by decide)).2.1⟩

/-- C3 counterexample: on the game `(state = "", guessed = ∅,
letters = ∅, guessesLeft = 1)` with the fresh guess `'a'`, all of the
claim's hypotheses hold (non-terminal, guess not guessed,
`letters ⊆ guessed ∪ {guess}`), yet `nested.make_guess` does not
return a won game — it returns a lost one — so the claim fails for the
nested implementation. -/
theorem C3_counterexample :
    ¬(("" : String) = "won" ∨ ("" : String) = "lost") ∧
    'a' ∉ (∅ : Finset Char) ∧
    (∅ : Finset Char) ⊆ (∅ : Finset Char) ∪ {'a'} ∧
    nested.make_guess ⟨"", ∅, ∅, 1⟩ 'a' ≠ ⟨"won", {'a'}, ∅, 1⟩ ∧
    (nested.make_guess ⟨"", ∅, ∅, 1⟩ 'a').state = "lost" := by
  refine ⟨by decide, by decide, by decide, by decide, by decide⟩

/-- C3 (amended): for every non-terminal Game and fresh guess with
`letters ⊆ guessed ∪ {guess}`, the indexed and indexed_fns
implementations return the game with `state = won` and
`guessed = guessed ∪ {guess}` (letters and guessesLeft unchanged);
the nested implementation does likewise provided additionally
`guess ∈ letters`. -/
theorem C3_winning (g : Game) (x : Char)
    (hs : ¬(g.state = "won" ∨ g.state = "lost")) (hg : x ∉ g.guessed)
    (hw : g.letters ⊆ g.guessed ∪ {x}) :
    indexed.make_guess g x = { g with state := "won", guessed := g.guessed ∪ {x} } ∧
    indexed_fns.make_guess g x = { g with state := "won", guessed := g.guessed ∪ {x} } ∧
    (x ∈ g.letters →
      nested.make_guess g x = { g with state := "won", guessed := g.guessed ∪ {x} }) := by
  have hidx : indexed.make_guess g x =
      { g with state := "won", guessed := g.guessed ∪ {x} } := by
    unfold indexed.make_guess indexed.is_game_already_over indexed.is_already_guessed
      indexed.is_winning_guess
    simp [hs, hg, hw]
  refine ⟨hidx, by rw [impl_fns_eq]; exact hidx, fun hx => ?_⟩
  rw [nested_agrees_indexed g x (Or.inl hx)]
  exact hidx

/-- C3 witness: the amended theorem applied at `letters = {'a'}`,
guess `'a'`. -/
theorem C3_winning_witness :
    indexed.make_guess ⟨"", ∅, {'a'}, 1⟩ 'a' = ⟨"won", {'a'}, {'a'}, 1⟩ ∧
    nested.make_guess ⟨"", ∅, {'a'}, 1⟩ 'a' = ⟨"won", {'a'}, {'a'}, 1⟩ :=
  ⟨(C3_winning ⟨"", ∅, {'a'}, 1⟩ 'a' (by decide) (by decide) (by decide)).1,
   (C3_winning ⟨"", ∅, {'a'}, 1⟩ 'a' (by decide) (by decide) (by decide)).2.2 (by decide)⟩

/-- C4 confirmed: for every non-terminal Game and fresh guess with
`guess ∉ letters`, `letters` not covered by `guessed ∪ {guess}`, and
`guessesLeft = 1`, all three implementations return the game with
`state = lost`, `guessed = guessed ∪ {guess}`, `guessesLeft = 0`, and
`letters` unchanged. -/
theorem C4_losing (g : Game) (x : Char)
    (hs : ¬(g.state = "won" ∨ g.state = "lost")) (hg : x ∉ g.guessed)
    (hx : x ∉ g.letters) (hw : ¬ g.letters ⊆ g.guessed ∪ {x})
    (h1 : g.guessesLeft = 1) :
    nested.make_guess g x =
      { g with state := "lost", guessed := g.guessed ∪ {x}, guessesLeft := 0 } ∧
    indexed.make_guess g x =
      { g with state := "lost", guessed := g.guessed ∪ {x}, guessesLeft := 0 } ∧
    indexed_fns.make_guess g x =
      { g with state := "lost", guessed := g.guessed ∪ {x}, guessesLeft := 0 } := by
  have hidx : indexed.make_guess g x =
      { g with state := "lost", guessed := g.guessed ∪ {x}, guessesLeft := 0 } := by
    unfold indexed.make_guess indexed.is_game_already_over indexed.is_already_guessed
      indexed.is_winning_guess indexed.is_losing_guess
    simp [hs, hg, hx, hw, h1]
  have hns : ¬ g.letters ⊆ g.guessed := fun hsub =>
    hw (hsub.trans Finset.subset_union_left)
  refine ⟨?_, hidx, by rw [impl_fns_eq]; exact hidx⟩
  rw [nested_agrees_indexed g x (Or.inr hns)]
  exact hidx

/-- C4 witness: the theorem applied at `letters = {'a'}`,
`guessesLeft = 1`, guess `'b'`. -/
theorem C4_losing_witness :
    nested.make_guess ⟨"", ∅, {'a'}, 1⟩ 'b' = ⟨"lost", {'b'}, {'a'}, 0⟩ ∧
    indexed.make_guess ⟨"", ∅, {'a'}, 1⟩ 'b' = ⟨"lost", {'b'}, {'a'}, 0⟩ :=
  ⟨(C4_losing ⟨"", ∅, {'a'}, 1⟩ 'b' (by decide) (by decide) (by decide)
      (by decide) (by decide)).1,
   (C4_losing ⟨"", ∅, {'a'}, 1⟩ 'b' (by decide) (by decide) (by decide)
      (by decide) (by decide)).2.1⟩

/-- C5 confirmed: terminal states are absorbing — for every Game whose
state is `won` or `lost` and every letter, all three implementations
return the input unchanged in every field. -/
theorem C5_terminal_absorbing (g : Game) (x : Char)
    (hs : g.state = "won" ∨ g.state = "lost") :
    nested.make_guess g x = g ∧
    indexed.make_guess g x = g ∧
    indexed_fns.make_guess g x = g := by
  have hidx : indexed.make_guess g x = g := by
    unfold indexed.make_guess indexed.is_game_already_over
    simp [hs]
  refine ⟨?_, hidx, by rw [impl_fns_eq]; exact hidx⟩
  unfold nested.make_guess
  simp [hs]

/-- C5 witness: the theorem applied at a concrete won game with
guess `'m'`. -/
theorem C5_terminal_absorbing_witness :
    nested.make_guess ⟨"won", ∅, ∅, 1⟩ 'm' = ⟨"won", ∅, ∅, 1⟩ ∧
    indexed.make_guess ⟨"won", ∅, ∅, 1⟩ 'm' = ⟨"won", ∅, ∅, 1⟩ :=
  ⟨(C5_terminal_absorbing ⟨"won", ∅, ∅, 1⟩ 'm' (Or.inl rfl)).1,
   (C5_terminal_absorbing ⟨"won", ∅, ∅, 1⟩ 'm' (Or.inl rfl)).2.1⟩

/-- C6 confirmed: for every non-terminal Game and a guess already in
`guessed`, all three implementations return the input with only
`state` changed to `already_guessed`; `guessed`, `letters` and
`guessesLeft` are untouched (the guess is not re-added). -/
theorem C6_repeat_guess (g : Game) (x : Char)
    (hs : ¬(g.state = "won" ∨ g.state = "lost")) (hx : x ∈ g.guessed) :
    nested.make_guess g x = { g with state := "already_guessed" } ∧
    indexed.make_guess g x = { g with state := "already_guessed" } ∧
    indexed_fns.make_guess g x = { g with state := "already_guessed" } := by
  have hidx : indexed.make_guess g x = { g with state := "already_guessed" } := by
    unfold indexed.make_guess indexed.is_game_already_over indexed.is_already_guessed
    simp [hs, hx]
  refine ⟨?_, hidx, by rw [impl_fns_eq]; exact hidx⟩
  unfold nested.make_guess nested.accept_guess
  simp [hs, hx]

/-- C6 witness: the theorem applied at `guessed = {'a'}`, guess `'a'`. -/
theorem C6_repeat_guess_witness :
    nested.make_guess ⟨"", {'a'}, ∅, 1⟩ 'a' = ⟨"already_guessed", {'a'}, ∅, 1⟩ ∧
    indexed.make_guess ⟨"", {'a'}, ∅, 1⟩ 'a' = ⟨"already_guessed", {'a'}, ∅, 1⟩ :=
  ⟨(C6_repeat_guess ⟨"", {'a'}, ∅, 1⟩ 'a' (by decide) (by decide)).1,
   (C6_repeat_guess ⟨"", {'a'}, ∅, 1⟩ 'a' (by decide) (by decide)).2.1⟩

/-- C7 confirmed: for every Game and every letter, the guessed set of
the result is a superset of (or equal to) the input's guessed set, and
the result's guessesLeft is less than or equal to the input's, in all
three implementations. -/
theorem C7_monotonicity (g : Game) (x : Char) :
    (g.guessed ⊆ (nested.make_guess g x).guessed ∧
      (nested.make_guess g x).guessesLeft ≤ g.guessesLeft) ∧
    (g.guessed ⊆ (indexed.make_guess g x).guessed ∧
      (indexed.make_guess g x).guessesLeft ≤ g.guessesLeft) ∧
    (g.guessed ⊆ (indexed_fns.make_guess g x).guessed ∧
      (indexed_fns.make_guess g x).guessesLeft ≤ g.guessesLeft) := by
  have hidx : g.guessed ⊆ (indexed.make_guess g x).guessed ∧
      (indexed.make_guess g x).guessesLeft ≤ g.guessesLeft := by
    unfold indexed.make_guess indexed.is_game_already_over indexed.is_already_guessed
      indexed.is_winning_guess indexed.is_losing_guess indexed.is_good_guess
    split_ifs <;> simp_all
  refine ⟨?_, hidx, by rw [impl_fns_eq]; exact hidx⟩
  unfold nested.make_guess nested.accept_guess nested.score_guess nested.maybe_won
  split_ifs <;> simp_all

/-- C8 confirmed: no transition in any of the three implementations
ever modifies the `letters` set — the result's letters always equal
the input's. -/
theorem C8_letters_immutable (g : Game) (x : Char) :
    (nested.make_guess g x).letters = g.letters ∧
    (indexed.make_guess g x).letters = g.letters ∧
    (indexed_fns.make_guess g x).letters = g.letters := by
  have hidx : (indexed.make_guess g x).letters = g.letters := by
    unfold indexed.make_guess
    split_ifs <;> simp
  refine ⟨?_, hidx, by rw [impl_fns_eq]; exact hidx⟩
  unfold nested.make_guess nested.accept_guess nested.score_guess nested.maybe_won
  split_ifs <;> simp

/-- C9 confirmed: in the indexed and indexed_fns implementations, a
Game with an empty `letters` set, non-terminal state, and a fresh
guess always yields `state = won` with `guessed = guessed ∪ {guess}`,
because the empty set is a subset of every set and the winning check
comes before the losing and bad-guess branches. -/
theorem C9_empty_letters_wins (g : Game) (x : Char)
    (he : g.letters = ∅)
    (hs : ¬(g.state = "won" ∨ g.state = "lost")) (hg : x ∉ g.guessed) :
    indexed.make_guess g x = { g with state := "won", guessed := g.guessed ∪ {x} } ∧
    indexed_fns.make_guess g x = { g with state := "won", guessed := g.guessed ∪ {x} } := by
  have hidx : indexed.make_guess g x =
      { g with state := "won", guessed := g.guessed ∪ {x} } := by
    unfold indexed.make_guess indexed.is_game_already_over indexed.is_already_guessed
      indexed.is_winning_guess
    simp [hs, hg, he]
  exact ⟨hidx, by rw [impl_fns_eq]; exact hidx⟩

/-- C9 witness: the theorem applied at the empty-letters game with
guess `'a'`. -/
theorem C9_empty_letters_wins_witness :
    indexed.make_guess ⟨"", ∅, ∅, 1⟩ 'a' = ⟨"won", {'a'}, ∅, 1⟩ ∧
    indexed_fns.make_guess ⟨"", ∅, ∅, 1⟩ 'a' = ⟨"won", {'a'}, ∅, 1⟩ :=
  ⟨(C9_empty_letters_wins ⟨"", ∅, ∅, 1⟩ 'a' rfl (by decide) (by decide)).1,
   (C9_empty_letters_wins ⟨"", ∅, ∅, 1⟩ 'a' rfl (by decide) (by decide)).2⟩

/-- C10 confirmed: starting from any non-terminal state (for example
the empty seed tag `""`), the state of the result of any of the three
implementations is one of exactly the five tags `already_guessed`,
`won`, `lost`, `good_guess`, `bad_guess`; the input tag never
survives the transition. -/
theorem C10_result_states (g : Game) (x : Char)
    (hs : ¬(g.state = "won" ∨ g.state = "lost")) :
    (nested.make_guess g x).state ∈
      (["already_guessed", "won", "lost", "good_guess", "bad_guess"] : List String) ∧
    (indexed.make_guess g x).state ∈
      (["already_guessed", "won", "lost", "good_guess", "bad_guess"] : List String) ∧
    (indexed_fns.make_guess g x).state ∈
      (["already_guessed", "won", "lost", "good_guess", "bad_guess"] : List String) := by
  have hidx : (indexed.make_guess g x).state ∈
      (["already_guessed", "won", "lost", "good_guess", "bad_guess"] : List String) := by
    unfold indexed.make_guess indexed.is_game_already_over
    split_ifs <;> simp_all
  refine ⟨?_, hidx, by rw [impl_fns_eq]; exact hidx⟩
  unfold nested.make_guess nested.accept_guess nested.score_guess nested.maybe_won
  split_ifs <;> simp_all

/-- C10 witness: the theorem applied at the empty seed game with
guess `'a'`. -/
theorem C10_result_states_witness :
    (nested.make_guess ⟨"", ∅, ∅, 1⟩ 'a').state ∈
      (["already_guessed", "won", "lost", "good_guess", "bad_guess"] : List String) ∧
    (indexed.make_guess ⟨"", ∅, ∅, 1⟩ 'a').state ∈
      (["already_guessed", "won", "lost", "good_guess", "bad_guess"] : List String) :=
  ⟨(C10_result_states ⟨"", ∅, ∅, 1⟩ 'a' (by decide)).1,
   (C10_result_states ⟨"", ∅, ∅, 1⟩ 'a' (by decide)).2.1⟩
